import Mathlib

/-!
Shallow embedding of the VST3 host layer in src/lib/vst3_host.cpp.

The host code drives three external collaborator objects from the plugin
binary: the component (IComponent), the processor (IAudioProcessor) and the
optional controller (IEditController).  Their behaviour is modelled by
oracle fields (whether a given call succeeds) plus the state the host can
observe through them; the host functions themselves are translated
statement by statement.  Machine floats (normalized velocities, parameter
values, sample rates) are modelled as rationals.  Return codes keep the C
convention: 0 for success, -1 for failure; stateful functions return the
status paired with the updated state.
-/

namespace VST3Host

/-- The VST3 audio-effect class category tag compared against
classInfo.category() at src/lib/vst3_host.cpp line 82 (kVstAudioEffectClass
in the SDK is the string "Audio Module Class"). -/
def kVstAudioEffectClass : String := "Audio Module Class"

/-- Immutable metadata of one factory-exposed class, the shape consumed by
the class-selection loop of vst3_load_plugin (lines 77-93). -/
structure ClassInfo where
  cid : Int
  name : String
  vendor : String
  category : String
deriving DecidableEq

/-- Payload of a Steinberg::Vst::Event as filled in by the event-submission
functions (lines 366-463): note-on, note-off, and legacy MIDI-CC-out shaped
events.  The float fields are modelled as rationals. -/
inductive EventBody
  | noteOn (channel pitch : Int) (velocity : Rat) (length : Int) (tuning : Rat) (noteId : Int)
  | noteOff (channel pitch : Int) (velocity : Rat) (tuning : Rat) (noteId : Int)
  | midiCCOut (channel controlNumber value value2 : Int)
deriving DecidableEq

/-- A timestamped event in an EventList queue. -/
structure Event where
  busIndex : Int
  sampleOffset : Int
  ppqPosition : Int
  isLive : Bool
  body : EventBody
deriving DecidableEq

/-- Behavioural model of the plugin-side IComponent collaborator.  The
accept flag is the oracle for whether component->setActive(true) returns
kResultOk; the remaining fields are the component state the host mutates
through setActive and activateBus calls. -/
structure Component where
  acceptActive : Bool
  active : Bool
  inputBusActive : Bool
  outputBusActive : Bool
deriving DecidableEq

/-- Behavioural model of the plugin-side IAudioProcessor collaborator.
The accept/result flags are oracles for the outcome of setupProcessing,
setProcessing and process calls; processing mirrors the setProcessing
state; processCalls counts invocations of the block-processing entry point
processor->process, so that theorems can observe whether the host reached
the plugin ABI on a given call. -/
structure Processor where
  acceptSetup : Bool
  acceptSetProcessing : Bool
  processResult : Bool
  processing : Bool
  processCalls : Nat
deriving DecidableEq

/-- Modelled from the spec: the controller collaborator (IEditController)
is plugin-side code outside this repository.  Per spec section 4.6,
setParameter "applies directly to the controller's normalized value store"
and the controller reports its parameter count; the store is an
association list from parameter id to normalized value. -/
structure ControllerModel where
  paramCount : Int
  store : List (Int × Rat)
deriving DecidableEq

/-- Modelled from the spec: IEditController::getParamNormalized reads the
controller's normalized value store. -/
def ControllerModel.getParamNormalized (c : ControllerModel) (id : Int) : Rat :=
  match c.store.lookup id with
  | some v => v
  | none => 0

/-- Modelled from the spec: IEditController::setParamNormalized writes the
controller's normalized value store and succeeds. -/
def ControllerModel.setParamNormalized (c : ControllerModel) (id : Int) (v : Rat) : ControllerModel :=
  { c with store := (id, v) :: c.store }

/-- The VST3Plugin aggregate (struct VST3Plugin, lines 30-49): the two or
three collaborator objects, the cached channel counts, sample rate and
block size, whether processData.prepare has run, the connection relation,
and the input/output event queues.  The module handle and the raw buffer
pointer vectors carry no observable state at this level and are omitted. -/
structure VST3Plugin where
  component : Component
  processor : Processor
  controller : Option ControllerModel
  connected : Bool
  num_inputs : Int
  num_outputs : Int
  sample_rate : Rat
  max_block_size : Int
  processDataPrepared : Bool
  inputEvents : List Event
  outputEvents : List Event
deriving DecidableEq

/-- Inputs to vst3_load_plugin: the factory's class list plus oracles for
every external call the loader makes (module creation, component
creation/initialization, processor interface query, controller class id
query, controller creation and initialization, connection-point support)
and the channel counts the bus query reports (0 covering absent buses or
failed getBusInfo calls). -/
structure LoadEnv where
  bundlePathNull : Bool
  moduleOk : Bool
  classInfos : List ClassInfo
  componentCreateOk : Bool
  componentInitOk : Bool
  processorSupported : Bool
  component0 : Component
  processor0 : Processor
  controllerClassId : Bool
  controllerCreateOk : Bool
  controllerInitOk : Bool
  controllerParamCount : Int
  componentHasCP : Bool
  controllerHasCP : Bool
  reportedInputs : Int
  reportedOutputs : Int
deriving DecidableEq

/-- The class-selection loop of vst3_load_plugin (lines 81-88): scan the
factory's class list in order and take the first class whose category
equals kVstAudioEffectClass. -/
def selectAudioEffectClass : List ClassInfo → Option ClassInfo
  | [] => none
  | c :: rest =>
    if c.category = kVstAudioEffectClass then some c
    else selectAudioEffectClass rest

/-- vst3_load_plugin (lines 53-169).  Null path and module-creation failure
return null; no audio-effect class returns null; component creation,
component initialization and processor-query failures return null.  The
controller branch (lines 127-143) keeps the created controller whether or
not its initialize call succeeded: the return value of
controller->initialize at line 132 is discarded, so controllerInitOk does
not appear in the result.  Connection is attempted only when a controller
was created and both sides expose IConnectionPoint. -/
def vst3_load_plugin (env : LoadEnv) : Option VST3Plugin :=
  if env.bundlePathNull then none
  else if !env.moduleOk then none
  else
    match selectAudioEffectClass env.classInfos with
    | none => none
    | some _cls =>
      if !env.componentCreateOk then none
      else if !env.componentInitOk then none
      else if !env.processorSupported then none
      else
        let controller : Option ControllerModel :=
          if env.controllerClassId && env.controllerCreateOk then
            some { paramCount := env.controllerParamCount, store := [] }
          else none
        let connected :=
          controller.isSome && env.componentHasCP && env.controllerHasCP
        some
          { component := env.component0
            processor := env.processor0
            controller := controller
            connected := connected
            num_inputs := env.reportedInputs
            num_outputs := env.reportedOutputs
            sample_rate := 0
            max_block_size := 0
            processDataPrepared := false
            inputEvents := []
            outputEvents := [] }

/-- vst3_get_parameter_count (lines 205-208): 0 on a null plugin or a
controller-less instance, otherwise the controller's parameter count. -/
def vst3_get_parameter_count : Option VST3Plugin → Int
  | none => 0
  | some p =>
    match p.controller with
    | none => 0
    | some c => c.paramCount

/-- vst3_get_parameter (lines 245-248): 0.0 on a null plugin or a
controller-less instance, otherwise getParamNormalized on the controller. -/
def vst3_get_parameter (p? : Option VST3Plugin) (param_id : Int) : Rat :=
  match p? with
  | none => 0
  | some p =>
    match p.controller with
    | none => 0
    | some c => c.getParamNormalized param_id

/-- vst3_set_parameter (lines 250-266): -1 on a null plugin or a
controller-less instance, otherwise setParamNormalized on the controller
(the connection-point block at lines 257-263 performs no action). -/
def vst3_set_parameter (p? : Option VST3Plugin) (param_id : Int) (value : Rat) :
    Int × Option VST3Plugin :=
  match p? with
  | none => (-1, none)
  | some p =>
    match p.controller with
    | none => (-1, some p)
    | some c =>
      (0, some { p with controller := some (c.setParamNormalized param_id value) })

/-- vst3_setup_processing (lines 268-299).  The cached sample_rate and
max_block_size fields are overwritten first (lines 271-272), then the
input and output buses are activated when their channel count is positive
(lines 275-281), and only then is the processor asked to accept the setup
(line 290); on rejection the function returns -1 with those earlier
effects left in place and processData.prepare not run. -/
def vst3_setup_processing (p? : Option VST3Plugin) (sample_rate : Rat)
    (max_samples_per_block : Int) : Int × Option VST3Plugin :=
  match p? with
  | none => (-1, none)
  | some p =>
    let p1 := { p with sample_rate := sample_rate, max_block_size := max_samples_per_block }
    let p2 :=
      if p1.num_inputs > (0 : Int) then
        { p1 with component := { p1.component with inputBusActive := true } }
      else p1
    let p3 :=
      if p2.num_outputs > (0 : Int) then
        { p2 with component := { p2.component with outputBusActive := true } }
      else p2
    if p3.processor.acceptSetup then
      (0, some { p3 with processDataPrepared := true })
    else
      (-1, some p3)

/-- vst3_set_active (lines 301-320).  Activation: component->setActive(true)
first, then processor->setProcessing(true); if the component rejects,
return -1 with nothing changed; if the processor then rejects, return -1
with the component left active (no rollback, lines 310-313).  Deactivation
calls setProcessing(false) and setActive(false) ignoring their results. -/
def vst3_set_active (p? : Option VST3Plugin) (active : Bool) : Int × Option VST3Plugin :=
  match p? with
  | none => (-1, none)
  | some p =>
    if active then
      if p.component.acceptActive then
        let p1 := { p with component := { p.component with active := true } }
        if p1.processor.acceptSetProcessing then
          (0, some { p1 with processor := { p1.processor with processing := true } })
        else
          (-1, some p1)
      else
        (-1, some p)
    else
      (0, some { p with
          processor := { p.processor with processing := false },
          component := { p.component with active := false } })

/-- vst3_process (lines 322-364).  After the null checks the function binds
the caller's channel pointers into the prepared buffer structure (pointer
plumbing with no observable effect on this state) and unconditionally
invokes processor->process - there is no check of the activation or
configuration state.  A non-kResultOk process result returns -1
immediately (line 357), so the input event queue is cleared (line 361)
only on the success path. -/
def vst3_process (p? : Option VST3Plugin) (_num_samples _num_input_channels
    _num_output_channels : Int) : Int × Option VST3Plugin :=
  match p? with
  | none => (-1, none)
  | some p =>
    let p1 := { p with processor :=
      { p.processor with processCalls := p.processor.processCalls + 1 } }
    if p.processor.processResult then
      (0, some { p1 with inputEvents := [] })
    else
      (-1, some p1)

/-- vst3_send_note_on (lines 366-384): null check only, then append one
live note-on event with velocity normalized by velocity / 127. -/
def vst3_send_note_on (p? : Option VST3Plugin) (channel note velocity sample_offset : Int) :
    Int × Option VST3Plugin :=
  match p? with
  | none => (-1, none)
  | some p =>
    let event : Event :=
      { busIndex := 0, sampleOffset := sample_offset, ppqPosition := 0, isLive := true,
        body := EventBody.noteOn channel note ((velocity : Rat) / 127) 0 0 (-1) }
    (0, some { p with inputEvents := p.inputEvents ++ [event] })

/-- vst3_send_note_off (lines 386-403): null check only, then append one
live note-off event with zero velocity. -/
def vst3_send_note_off (p? : Option VST3Plugin) (channel note sample_offset : Int) :
    Int × Option VST3Plugin :=
  match p? with
  | none => (-1, none)
  | some p =>
    let event : Event :=
      { busIndex := 0, sampleOffset := sample_offset, ppqPosition := 0, isLive := true,
        body := EventBody.noteOff channel note 0 0 (-1) }
    (0, some { p with inputEvents := p.inputEvents ++ [event] })

/-- vst3_send_midi_cc (lines 405-422): null check only, then append one
live legacy MIDI-CC-out event carrying the controller number and value. -/
def vst3_send_midi_cc (p? : Option VST3Plugin) (channel cc value sample_offset : Int) :
    Int × Option VST3Plugin :=
  match p? with
  | none => (-1, none)
  | some p =>
    let event : Event :=
      { busIndex := 0, sampleOffset := sample_offset, ppqPosition := 0, isLive := true,
        body := EventBody.midiCCOut channel cc value 0 }
    (0, some { p with inputEvents := p.inputEvents ++ [event] })

/-- vst3_send_program_change (lines 424-463): null check only, then append
two live legacy MIDI-CC-out events at the same offset, a bank-select-MSB
event (controlNumber 0, value 0) followed by a controlNumber 32 event
carrying the program number. -/
def vst3_send_program_change (p? : Option VST3Plugin) (channel program sample_offset : Int) :
    Int × Option VST3Plugin :=
  match p? with
  | none => (-1, none)
  | some p =>
    let event : Event :=
      { busIndex := 0, sampleOffset := sample_offset, ppqPosition := 0, isLive := true,
        body := EventBody.midiCCOut channel 0 0 0 }
    let p1 := { p with inputEvents := p.inputEvents ++ [event] }
    let pcEvent : Event :=
      { busIndex := 0, sampleOffset := sample_offset, ppqPosition := 0, isLive := true,
        body := EventBody.midiCCOut channel 32 program 0 }
    (0, some { p1 with inputEvents := p1.inputEvents ++ [pcEvent] })

/-- A VST3Plugin* handle as passed to vst3_unload_plugin: either the null
pointer or the pointer to the one allocation the loader handed out. -/
inductive Handle
  | null
  | ptr
deriving DecidableEq

/-- The allocation the handle may point to: some while the VST3Plugin
object is live, none once delete has freed it. -/
structure Heap where
  alloc : Option VST3Plugin
deriving DecidableEq

/-- Outcome of an unload call: an updated heap, or a fault standing for
the undefined behaviour of touching freed memory. -/
inductive UnloadResult
  | ok (heap : Heap)
  | fault
deriving DecidableEq

/-- vst3_unload_plugin (lines 465-494).  A null handle returns at once
(line 466).  A non-null handle is dereferenced: the function reads
plugin->component and plugin->controller (line 469), disconnects and
terminates the collaborator objects (external effects), and ends with
delete plugin (line 493), freeing the allocation.  A non-null handle whose
allocation is already freed makes those reads and the delete act on freed
memory - undefined behaviour, modelled as a fault. -/
def vst3_unload_plugin (h : Handle) (heap : Heap) : UnloadResult :=
  match h with
  | Handle.null => UnloadResult.ok heap
  | Handle.ptr =>
    match heap.alloc with
    | none => UnloadResult.fault
    | some _p => UnloadResult.ok { alloc := none }

/-! Concrete fixtures used by the closed evaluation theorems below. -/

/-- A component that accepts activation, initially inactive with inactive buses. -/
def baseComponent : Component :=
  { acceptActive := true, active := false, inputBusActive := false, outputBusActive := false }

/-- A well-behaved processor: accepts setup and setProcessing, process
returns kResultOk, no process call made yet. -/
def baseProcessor : Processor :=
  { acceptSetup := true, acceptSetProcessing := true, processResult := true,
    processing := false, processCalls := 0 }

/-- A freshly loaded controller-less stereo instance: nothing configured,
nothing active, empty queues. -/
def basePlugin : VST3Plugin :=
  { component := baseComponent, processor := baseProcessor, controller := none,
    connected := false, num_inputs := 2, num_outputs := 2, sample_rate := 0,
    max_block_size := 0, processDataPrepared := false, inputEvents := [], outputEvents := [] }

/-- A factory class carrying the audio-effect category tag. -/
def fxClass : ClassInfo :=
  { cid := 1, name := "Fx", vendor := "V", category := kVstAudioEffectClass }

/-- A load environment in which every external call succeeds and the
component exposes no companion controller. -/
def baseEnv : LoadEnv :=
  { bundlePathNull := false, moduleOk := true, classInfos := [fxClass],
    componentCreateOk := true, componentInitOk := true, processorSupported := true,
    component0 := baseComponent, processor0 := baseProcessor,
    controllerClassId := false, controllerCreateOk := false, controllerInitOk := false,
    controllerParamCount := 0, componentHasCP := false, controllerHasCP := false,
    reportedInputs := 2, reportedOutputs := 2 }

/-- One concrete queued event (a CC 7 volume message). -/
def sampleEvent : Event :=
  { busIndex := 0, sampleOffset := 0, ppqPosition := 0, isLive := true,
    body := EventBody.midiCCOut 0 7 100 0 }

/-- An instance whose processor fails the block-processing call, with one
event pending in the input queue. -/
def failingProcessPlugin : VST3Plugin :=
  { basePlugin with
      processor := { baseProcessor with processResult := false },
      inputEvents := [sampleEvent] }

/-- An instance whose component accepts setActive(true) but whose
processor rejects setProcessing(true). -/
def processingRejectsPlugin : VST3Plugin :=
  { basePlugin with
      processor := { baseProcessor with acceptSetProcessing := false } }

/-! Theorems settling the claims. -/

/-- Claim C1: the spec demands that process on an instance that was never
configured and activated return a usage error without invoking the
plugin's block-processing entry point; vst3_process has no such guard.
On a freshly loaded instance (processDataPrepared, component.active and
processor.processing all false) vst3_process still invokes
processor->process (the invocation count rises from 0 to 1) and returns
its status (0 here), not a usage error. -/
theorem process_unconfigured_invokes_plugin :
    (vst3_load_plugin baseEnv).map (fun p =>
      (p.processDataPrepared, p.component.active, p.processor.processing,
        (vst3_process (some p) 64 2 2).1,
        ((vst3_process (some p) 64 2 2).2).map (fun q => q.processor.processCalls)))
      = some (false, false, false, 0, some 1) := by
  rfl

/-- Claim C2 counterexample: when the plugin's block-processing call fails,
vst3_process returns -1 without clearing the input event queue, so the
queue is not empty when process returns - the claim's "regardless of
whether the plugin's block-processing call succeeds or fails" is false. -/
theorem process_failure_leaves_events :
    (vst3_process (some failingProcessPlugin) 64 2 2).1 = -1 ∧
    ((vst3_process (some failingProcessPlugin) 64 2 2).2).map
        (fun q => q.inputEvents.isEmpty) = some false := by
  exact ⟨rfl, rfl⟩

/-- Claim C2 amended: on a valid instance the input event queue is cleared
exactly when the plugin's block-processing call succeeds; when that call
fails, vst3_process returns -1 immediately and the input event queue is
left unchanged. -/
theorem process_clears_events_iff_success (p : VST3Plugin) (n i o : Int) :
    (p.processor.processResult = true →
      (vst3_process (some p) n i o).1 = 0 ∧
      ((vst3_process (some p) n i o).2).map (fun q => q.inputEvents) = some []) ∧
    (p.processor.processResult = false →
      (vst3_process (some p) n i o).1 = -1 ∧
      ((vst3_process (some p) n i o).2).map (fun q => q.inputEvents) = some p.inputEvents) := by
  constructor
  · intro h
    simp [vst3_process, h]
  · intro h
    simp [vst3_process, h]

/-- Claim C2 witness: the amended theorem applied to the fresh stereo
instance, whose process call succeeds and leaves an empty queue. -/
theorem process_clears_events_witness :
    (vst3_process (some basePlugin) 64 2 2).1 = 0 ∧
    ((vst3_process (some basePlugin) 64 2 2).2).map (fun q => q.inputEvents) = some [] :=
  (process_clears_events_iff_success basePlugin 64 2 2).1 rfl

/-- Claim C3: the spec demands that a second unload on the same handle
neither fault nor double-release; vst3_unload_plugin ends in delete
plugin, so a second call with the same non-null handle dereferences and
deletes freed memory.  First call frees the allocation, second call on
the resulting heap faults. -/
theorem unload_twice_faults :
    vst3_unload_plugin Handle.ptr { alloc := some basePlugin } =
      UnloadResult.ok { alloc := none } ∧
    vst3_unload_plugin Handle.ptr { alloc := none } = UnloadResult.fault := by
  exact ⟨rfl, rfl⟩

/-- Claim C4 counterexample: with a component that accepts setActive(true)
and a processor that rejects setProcessing(true), vst3_set_active returns
-1 but leaves the component activated - the claim's "a component
activation performed before the processor's rejection is not left in
effect" is false. -/
theorem set_active_partial_activation :
    (vst3_set_active (some processingRejectsPlugin) true).1 = -1 ∧
    ((vst3_set_active (some processingRejectsPlugin) true).2).map
        (fun q => q.component.active) = some true := by
  exact ⟨rfl, rfl⟩

/-- Claim C4 amended: activation fails with an error when either the
component or the processor rejects it; a component rejection leaves the
instance unchanged, but a processor rejection after a successful
component activation leaves the component active (no rollback); when both
accept, the component is active and processing is enabled. -/
theorem set_active_error_behavior (p : VST3Plugin) :
    (p.component.acceptActive = false →
      vst3_set_active (some p) true = (-1, some p)) ∧
    (p.component.acceptActive = true → p.processor.acceptSetProcessing = false →
      (vst3_set_active (some p) true).1 = -1 ∧
      ((vst3_set_active (some p) true).2).map
          (fun q => (q.component.active, q.processor.processing))
        = some (true, p.processor.processing)) ∧
    (p.component.acceptActive = true → p.processor.acceptSetProcessing = true →
      (vst3_set_active (some p) true).1 = 0 ∧
      ((vst3_set_active (some p) true).2).map
          (fun q => (q.component.active, q.processor.processing))
        = some (true, true)) := by
  refine ⟨fun h => ?_, fun h1 h2 => ?_, fun h1 h2 => ?_⟩
  · simp [vst3_set_active, h]
  · simp [vst3_set_active, h1, h2]
  · simp [vst3_set_active, h1, h2]

/-- Claim C4 witness: the amended theorem applied to the instance whose
processor rejects setProcessing, exercising the no-rollback branch. -/
theorem set_active_error_behavior_witness :
    (vst3_set_active (some processingRejectsPlugin) true).1 = -1 ∧
    ((vst3_set_active (some processingRejectsPlugin) true).2).map
        (fun q => (q.component.active, q.processor.processing))
      = some (true, processingRejectsPlugin.processor.processing) :=
  (set_active_error_behavior processingRejectsPlugin).2.1 rfl rfl

/-- A load environment whose component exposes a companion controller that
is created successfully but whose initialize call fails; the controller
reports 3 parameters. -/
def uninitControllerEnv : LoadEnv :=
  { baseEnv with
      controllerClassId := true, controllerCreateOk := true,
      controllerInitOk := false, controllerParamCount := 3 }

/-- An instance carrying a controller with an empty value store. -/
def controllerPlugin : VST3Plugin :=
  { basePlugin with controller := some { paramCount := 1, store := [] } }

/-- Claim C5 counterexample: when the companion controller is created but
its initialize call fails, vst3_load_plugin still succeeds yet the
instance is NOT controller-less - the initialize return value (line 132)
is discarded and the controller retained, so vst3_get_parameter_count
reports the controller's count (3 here), not zero. -/
theorem load_retains_uninitialized_controller :
    (vst3_load_plugin uninitControllerEnv).map
        (fun p => (p.controller.isSome, vst3_get_parameter_count (some p)))
      = some (true, 3) := by
  rfl

/-- Claim C5 amended: when the companion controller is absent (no
controller class id, or its creation fails), loading still succeeds and
the instance is controller-less with zero reported parameters; when the
controller is created, loading succeeds and the controller is retained
regardless of whether its initialization succeeded (the initialize return
value is ignored), so parameter introspection uses it either way. -/
theorem load_controller_handling (env : LoadEnv)
    (hb : env.bundlePathNull = false) (hm : env.moduleOk = true)
    (hc : env.componentCreateOk = true) (hi : env.componentInitOk = true)
    (hp : env.processorSupported = true)
    (c : ClassInfo) (hsel : selectAudioEffectClass env.classInfos = some c) :
    ((env.controllerClassId = false ∨ env.controllerCreateOk = false) →
      (vst3_load_plugin env).map
          (fun p => (p.controller, vst3_get_parameter_count (some p)))
        = some (none, 0)) ∧
    (env.controllerClassId = true → env.controllerCreateOk = true →
      (vst3_load_plugin env).map (fun p => p.controller)
        = some (some { paramCount := env.controllerParamCount, store := [] })) := by
  constructor
  · intro h
    rcases h with h | h <;>
      simp [vst3_load_plugin, hb, hm, hc, hi, hp, hsel, h, vst3_get_parameter_count]
  · intro h1 h2
    simp [vst3_load_plugin, hb, hm, hc, hi, hp, hsel, h1, h2]

/-- Claim C5 witness: the amended theorem applied to the environment with
no companion controller class, yielding a controller-less instance with
zero parameters. -/
theorem load_controller_handling_witness :
    (vst3_load_plugin baseEnv).map
        (fun p => (p.controller, vst3_get_parameter_count (some p)))
      = some (none, 0) :=
  (load_controller_handling baseEnv rfl rfl rfl rfl rfl fxClass rfl).1 (Or.inl rfl)

/-- Claim C6: on every non-null instance, vst3_send_program_change returns
0 and appends exactly two legacy CC-shaped events at the given sample
offset: first controlNumber 0 (bank-select MSB) with value 0, then
controlNumber 32 carrying the program number, in that order. -/
theorem send_program_change_enqueues_two_cc (p : VST3Plugin) (channel program offset : Int) :
    (vst3_send_program_change (some p) channel program offset).1 = 0 ∧
    ((vst3_send_program_change (some p) channel program offset).2).map
        (fun q => q.inputEvents)
      = some (p.inputEvents ++
          [{ busIndex := 0, sampleOffset := offset, ppqPosition := 0, isLive := true,
             body := EventBody.midiCCOut channel 0 0 0 },
           { busIndex := 0, sampleOffset := offset, ppqPosition := 0, isLive := true,
             body := EventBody.midiCCOut channel 32 program 0 }]) := by
  exact ⟨rfl, by simp [vst3_send_program_change]⟩

/-- Claim C7: with a controller present and v in [0,1], setParameter
returns 0 and an immediate getParameter on the resulting state returns v;
with no controller, setParameter returns -1 leaving the state unchanged
and getParameter returns 0 regardless of any preceding setParameter. -/
theorem parameter_round_trip (p : VST3Plugin) (id : Int) (v : Rat)
    (_h0 : 0 ≤ v) (_h1 : v ≤ 1) :
    (∀ c, p.controller = some c →
      ∃ q, vst3_set_parameter (some p) id v = (0, some q) ∧
        vst3_get_parameter (some q) id = v) ∧
    (p.controller = none →
      vst3_set_parameter (some p) id v = (-1, some p) ∧
      vst3_get_parameter (some p) id = 0) := by
  constructor
  · intro c hc
    refine ⟨{ p with controller := some (c.setParamNormalized id v) }, ?_, ?_⟩
    · simp [vst3_set_parameter, hc]
    · simp [vst3_get_parameter, ControllerModel.setParamNormalized,
        ControllerModel.getParamNormalized, List.lookup]
  · intro hc
    exact ⟨by simp [vst3_set_parameter, hc], by simp [vst3_get_parameter, hc]⟩

/-- Claim C7 witness: the round trip at parameter id 5 and value 1/2 on
the instance carrying a controller, and both hypotheses discharged. -/
theorem parameter_round_trip_witness :
    ∃ q, vst3_set_parameter (some controllerPlugin) 5 (1/2) = (0, some q) ∧
      vst3_get_parameter (some q) 5 = 1/2 :=
  (parameter_round_trip controllerPlugin 5 (1/2) (by norm_num) (by norm_num)).1
    { paramCount := 1, store := [] } rfl

/-- Factory class named B carrying the audio-effect category. -/
def bClass : ClassInfo :=
  { cid := 1, name := "B", vendor := "V", category := kVstAudioEffectClass }

/-- Factory class named A carrying some other category. -/
def aClass : ClassInfo :=
  { cid := 2, name := "A", vendor := "V", category := "Other" }

/-- Factory class named C carrying the audio-effect category. -/
def cClass : ClassInfo :=
  { cid := 3, name := "C", vendor := "V", category := kVstAudioEffectClass }

/-- A load environment whose factory exposes B (effect), A (other),
C (effect) in that enumeration order. -/
def multiClassEnv : LoadEnv :=
  { baseEnv with classInfos := [bClass, aClass, cClass] }

/-- An instance whose processor rejects the processing setup. -/
def setupRejectsPlugin : VST3Plugin :=
  { basePlugin with processor := { baseProcessor with acceptSetup := false } }

/-- The selection loop returns none on a list with no audio-effect class. -/
theorem selectAudioEffectClass_eq_none_of_no_match (cs : List ClassInfo)
    (h : ∀ x ∈ cs, x.category ≠ kVstAudioEffectClass) :
    selectAudioEffectClass cs = none := by
  induction cs with
  | nil => rfl
  | cons a as ih =>
    have ha := h a (by simp)
    simp only [selectAudioEffectClass, ha, if_false]
    exact ih (fun x hx => h x (by simp [hx]))

/-- The selection loop returns the head of the first matching suffix when
everything before it fails the category test. -/
theorem selectAudioEffectClass_first (pre : List ClassInfo) (c : ClassInfo)
    (post : List ClassInfo)
    (hpre : ∀ x ∈ pre, x.category ≠ kVstAudioEffectClass)
    (hc : c.category = kVstAudioEffectClass) :
    selectAudioEffectClass (pre ++ c :: post) = some c := by
  induction pre with
  | nil => simp [selectAudioEffectClass, hc]
  | cons a as ih =>
    have ha := hpre a (by simp)
    simp only [List.cons_append, selectAudioEffectClass, ha, if_false]
    exact ih (fun x hx => hpre x (by simp [hx]))

/-- Claim C8: the loader scans the factory class list in enumeration order
and selects the first class whose category is the audio-effect tag, with
no reordering among multiple matches; when no class matches,
vst3_load_plugin fails (returns null). -/
theorem load_selects_first_audio_effect (env : LoadEnv) :
    ((∀ x ∈ env.classInfos, x.category ≠ kVstAudioEffectClass) →
      vst3_load_plugin env = none) ∧
    (∀ pre c post, env.classInfos = pre ++ c :: post →
      (∀ x ∈ pre, x.category ≠ kVstAudioEffectClass) →
      c.category = kVstAudioEffectClass →
      selectAudioEffectClass env.classInfos = some c) := by
  constructor
  · intro h
    have hnone := selectAudioEffectClass_eq_none_of_no_match env.classInfos h
    simp [vst3_load_plugin, hnone]
  · intro pre c post heq hpre hc
    rw [heq]
    exact selectAudioEffectClass_first pre c post hpre hc

/-- Claim C8 witness: on the factory exposing B (effect), A (other),
C (effect), the selector chooses B, the first match. -/
theorem load_selects_first_audio_effect_witness :
    selectAudioEffectClass multiClassEnv.classInfos = some bClass :=
  (load_selects_first_audio_effect multiClassEnv).2 [] bClass [aClass, cClass] rfl
    (by intro x hx; simp at hx) rfl

/-- Claim C9: on every non-null instance, in every lifecycle state (the
instance is universally quantified, so in particular unconfigured and
inactive states are covered), each event-submission function returns 0
and appends its event(s) to the input event queue; no state-machine guard
rejects event submission. -/
theorem event_submission_unguarded (p : VST3Plugin)
    (channel note velocity cc value program offset : Int) :
    vst3_send_note_on (some p) channel note velocity offset =
      (0, some { p with inputEvents := p.inputEvents ++
        [{ busIndex := 0, sampleOffset := offset, ppqPosition := 0, isLive := true,
           body := EventBody.noteOn channel note ((velocity : Rat) / 127) 0 0 (-1) }] }) ∧
    vst3_send_note_off (some p) channel note offset =
      (0, some { p with inputEvents := p.inputEvents ++
        [{ busIndex := 0, sampleOffset := offset, ppqPosition := 0, isLive := true,
           body := EventBody.noteOff channel note 0 0 (-1) }] }) ∧
    vst3_send_midi_cc (some p) channel cc value offset =
      (0, some { p with inputEvents := p.inputEvents ++
        [{ busIndex := 0, sampleOffset := offset, ppqPosition := 0, isLive := true,
           body := EventBody.midiCCOut channel cc value 0 }] }) ∧
    (vst3_send_program_change (some p) channel program offset).1 = 0 ∧
    ((vst3_send_program_change (some p) channel program offset).2).map
        (fun q => q.inputEvents.length) = some (p.inputEvents.length + 2) := by
  refine ⟨rfl, rfl, rfl, rfl, ?_⟩
  simp [vst3_send_program_change]

/-- Claim C10: when the processor rejects the processing setup,
vst3_setup_processing returns -1, but the cached sample_rate and
max_block_size have already been overwritten with the rejected values and
the input/output buses (those with a positive channel count, per the
code's guards) have already been activated; only processData.prepare is
skipped.  Configure is not atomic on error. -/
theorem setup_processing_not_atomic (p : VST3Plugin) (sr : Rat) (mbs : Int)
    (hrej : p.processor.acceptSetup = false) :
    (vst3_setup_processing (some p) sr mbs).1 = -1 ∧
    ∃ q, (vst3_setup_processing (some p) sr mbs).2 = some q ∧
      q.sample_rate = sr ∧ q.max_block_size = mbs ∧
      q.processDataPrepared = p.processDataPrepared ∧
      (p.num_inputs > 0 → q.component.inputBusActive = true) ∧
      (p.num_outputs > 0 → q.component.outputBusActive = true) := by
  by_cases h1 : p.num_inputs > (0 : Int) <;> by_cases h2 : p.num_outputs > (0 : Int) <;>
    simp [vst3_setup_processing, hrej, h1, h2]

/-- Claim C10 witness: the rejected setup at 48000 Hz / 512 frames on the
stereo instance whose processor refuses the setup. -/
theorem setup_processing_not_atomic_witness :
    (vst3_setup_processing (some setupRejectsPlugin) 48000 512).1 = -1 ∧
    ∃ q, (vst3_setup_processing (some setupRejectsPlugin) 48000 512).2 = some q ∧
      q.sample_rate = 48000 ∧ q.max_block_size = 512 ∧
      q.processDataPrepared = setupRejectsPlugin.processDataPrepared ∧
      (setupRejectsPlugin.num_inputs > 0 → q.component.inputBusActive = true) ∧
      (setupRejectsPlugin.num_outputs > 0 → q.component.outputBusActive = true) :=
  setup_processing_not_atomic setupRejectsPlugin 48000 512 rfl

end VST3Host
